import Mathlib

/-!
Shallow embedding of `yongnuo-osc-server/src/server.rs` (the OSC → BLE bridge):
the light-state data model, the OSC message/bundle dispatcher, the single-slot
mailbox between the ingestion and transmit threads, the command frames, and
the ingestion-loop step.

Modelling conventions:
* `u8` channel values are `ℕ` with explicit `< 256` facts.
* `f32` OSC arguments are modelled by `FloatVal`: finite values exactly as
  rationals, NaN and the infinities symbolically.  All concrete inputs used in
  theorems below are values whose `f32` arithmetic is exact, so the rational
  model agrees with the machine arithmetic there.
* Rust panics (`unwrap` of `None`) are modelled by `Option`: a dispatch that
  would panic returns `none`.
* The mailbox (`Mutex<(LightState, StateModification)>` + `Condvar`) is
  modelled by `Mailbox`; the critical sections of `publish` and `consume` are
  atomic functions, and the outcome of a `Condvar::wait` is an explicit
  parameter (`none` = spurious wake with no intervening publish, `some p` =
  the last pair published while waiting).
-/

namespace YongnuoBridge

/-- An `f32` as seen by the OSC layer: finite values exactly as rationals,
NaN and the two infinities kept symbolic. -/
inductive FloatVal where
  | finite (q : ℚ)
  | nan
  | posInf
  | negInf
deriving DecidableEq

/-- Multiplication of an `f32` by a positive constant (`* 255.0`, `* 99.0`
in `handle_message`). -/
def FloatVal.scale (v : FloatVal) (c : ℚ) : FloatVal :=
  match v with
  | .finite q => .finite (q * c)
  | .nan => .nan
  | .posInf => .posInf
  | .negInf => .negInf

/-- `num_traits::ToPrimitive::to_u8` on an `f32` (the float type is wider than
`u8`): `Some(self as u8)` (truncation toward zero) exactly when
`-1.0 < self < 256.0`, otherwise `None`; NaN and the infinities fail the
comparisons and give `None`.  For `-1 < q < 0` truncation toward zero gives
`0 = ⌊q⌋.toNat`, and for `0 ≤ q` truncation equals the floor, so
`⌊q⌋.toNat` is the truncation on the whole accepted range. -/
def FloatVal.to_u8 : FloatVal → Option ℕ
  | .finite q => if -1 < q ∧ q < 256 then some (Int.toNat ⌊q⌋) else none
  | _ => none

/-- `rosc::OscType`, restricted to what the dispatcher distinguishes: a
float argument, an int argument, or anything else.  `OscType.float` is the
accessor used by `handle_message`: `Some` only for the float variant. -/
inductive OscType where
  | Float (v : FloatVal)
  | Int (n : ℤ)
  | other
deriving DecidableEq

/-- `OscType::float(self) -> Option<f32>`. -/
def OscType.float : OscType → Option FloatVal
  | .Float v => some v
  | _ => none

/-- `struct RGBState { red, green, blue: u8 }`. -/
structure RGBState where
  red : ℕ
  green : ℕ
  blue : ℕ
deriving DecidableEq

/-- `struct WhiteState { warm, cool: u8 }`. -/
structure WhiteState where
  warm : ℕ
  cool : ℕ
deriving DecidableEq

/-- `struct LightState { rgb: RGBState, white: WhiteState }`. -/
structure LightState where
  rgb : RGBState
  white : WhiteState
deriving DecidableEq

/-- `LightState::default()`: all channels zero. -/
def LightState.default : LightState := ⟨⟨0, 0, 0⟩, ⟨0, 0⟩⟩

/-- `enum StateModification { RGB, White, None }`. -/
inductive StateModification where
  | RGB
  | White
  | None
deriving DecidableEq

/-- `rosc::OscMessage`: an address path and a list of typed arguments. -/
structure OscMessage where
  addr : String
  args : List OscType
deriving DecidableEq

/-- `rosc::OscPacket`: a message or a bundle.  A `rosc::OscBundle` also
carries a time tag, which `handle_bundle` never reads, so the embedding keeps
only the `content` list. -/
inductive OscPacket where
  | Message (m : OscMessage)
  | Bundle (content : List OscPacket)

/-- `handle_message` (server.rs lines 93-147).  `value` is
`message.args.into_iter().nth(0)`; on each supported address the code runs
`value.unwrap().float().unwrap_or(0.0)`, so an empty argument list panics
there (modelled by `none`), while a present non-float argument defaults to
`0.0`.  The scaled value goes through `to_u8().unwrap_or(0)` and is stored in
the target channel; unsupported addresses only log and return
`StateModification::None`. -/
def handle_message (message : OscMessage) (state : LightState) :
    Option (LightState × StateModification) :=
  let value := message.args.head?
  if message.addr = "/red" then
    match value with
    | Option.none => Option.none
    | some v =>
      let basic_value := ((v.float.getD (.finite 0)).scale 255).to_u8.getD 0
      some ({ state with rgb := { state.rgb with red := basic_value } }, .RGB)
  else if message.addr = "/green" then
    match value with
    | Option.none => Option.none
    | some v =>
      let basic_value := ((v.float.getD (.finite 0)).scale 255).to_u8.getD 0
      some ({ state with rgb := { state.rgb with green := basic_value } }, .RGB)
  else if message.addr = "/blue" then
    match value with
    | Option.none => Option.none
    | some v =>
      let basic_value := ((v.float.getD (.finite 0)).scale 255).to_u8.getD 0
      some ({ state with rgb := { state.rgb with blue := basic_value } }, .RGB)
  else if message.addr = "/warm" then
    match value with
    | Option.none => Option.none
    | some v =>
      let basic_value := ((v.float.getD (.finite 0)).scale 99).to_u8.getD 0
      some ({ state with white := { state.white with warm := basic_value } }, .White)
  else if message.addr = "/cool" then
    match value with
    | Option.none => Option.none
    | some v =>
      let basic_value := ((v.float.getD (.finite 0)).scale 99).to_u8.getD 0
      some ({ state with white := { state.white with cool := basic_value } }, .White)
  else
    some (state, .None)

mutual

/-- `handle_packet` (server.rs lines 159-164): dispatch a message or recurse
into a bundle. -/
def handle_packet (packet : OscPacket) (state : LightState) :
    Option (LightState × StateModification) :=
  match packet with
  | .Message m => handle_message m state
  | .Bundle content => handle_bundle content state

/-- `handle_bundle` (server.rs lines 149-157): `bundle.content` is mapped
through `handle_packet` in order against the same mutable state, `.last()`
keeps only the final tag, and `unwrap_or(StateModification::None)` covers the
empty bundle.  A panic in any member (modelled `none`) propagates. -/
def handle_bundle (content : List OscPacket) (state : LightState) :
    Option (LightState × StateModification) :=
  match content with
  | [] => some (state, .None)
  | p :: rest =>
    match handle_packet p state with
    | Option.none => Option.none
    | some r =>
      match rest with
      | [] => some r
      | _ :: _ => handle_bundle rest r.1

end

/-- The shared slot `Mutex<(LightState, StateModification)>` of
`light_state_channel` (server.rs line 174-177). -/
structure Mailbox where
  slot : LightState × StateModification
deriving DecidableEq

/-- `publish` (server.rs lines 272-275): under the lock, unconditionally
overwrite the slot with the new `(snapshot, tag)` pair, then `notify_one`.
The second component is the number of `notify_one` calls issued (always
exactly one). -/
def publish (m : Mailbox) (snapshot : LightState) (tag : StateModification) :
    Mailbox × ℕ :=
  (⟨(snapshot, tag)⟩, 1)

/-- Effect on the slot of one `Condvar::wait` (server.rs line 230) as seen at
lock reacquisition: `Option.none` models a spurious wake with no intervening
publish (slot unchanged); `some p` models being woken after publishes, `p`
being the last pair published while the consumer waited. -/
def condvar_wait (m : Mailbox) (lastPublished : Option (LightState × StateModification)) :
    Mailbox :=
  match lastPublished with
  | Option.none => m
  | some p => ⟨p⟩

/-- `consume` (server.rs lines 226-235): under the lock, IF (not while) the
stored tag is `StateModification::None`, wait on the condition variable;
then copy out the stored pair, reset the stored tag to `None` leaving the
snapshot as-is, and return the copy together with the new slot state. -/
def consume (m : Mailbox) (w : Option (LightState × StateModification)) :
    (LightState × StateModification) × Mailbox :=
  let m2 := if m.slot.2 = StateModification.None then condvar_wait m w else m
  (m2.slot, ⟨(m2.slot.1, StateModification.None)⟩)

/-- The byte frame passed to `light.command` by `send_rgb_state`
(server.rs line 77). -/
def send_rgb_state_frame (state : LightState) : List ℕ :=
  [0xae, 0xa1, state.rgb.red, state.rgb.green, state.rgb.blue, 0x56]

/-- The byte frame passed to `light.command` by `send_white_state`
(server.rs line 87): note `cool` before `warm`. -/
def send_white_state_frame (state : LightState) : List ℕ :=
  [0xae, 0xaa, 1, state.white.cool, state.white.warm, 0x56]

/-- Following the spec's words: `rgbFrame(state) -> 6 bytes =
[0xae, 0xa1, red, green, blue, 0x56]`. -/
def spec_rgbFrame (state : LightState) : List ℕ :=
  [0xae, 0xa1, state.rgb.red, state.rgb.green, state.rgb.blue, 0x56]

/-- Following the spec's words: `whiteFrame(state) -> 6 bytes =
[0xae, 0xaa, 0x01, cool, warm, 0x56]`. -/
def spec_whiteFrame (state : LightState) : List ℕ :=
  [0xae, 0xaa, 0x01, state.white.cool, state.white.warm, 0x56]

/-- Outcome of one iteration of the ingestion loop after a datagram has been
received: the loop continues with a possibly updated local state, having
published at most one pair to the mailbox, or the thread panics. -/
inductive IngestOutcome where
  | next (st : LightState) (publishedPair : Option (LightState × StateModification))
  | panicked
deriving DecidableEq

/-- One iteration of the ingestion loop (server.rs lines 262-275) from the
decoder's verdict on: on decode failure the error is logged and the loop
continues with the state untouched and nothing published; on success the
packet is dispatched and `(light_state.clone(), this_modification)` is
published (a panic inside dispatch kills the thread). -/
def ingest_step (decoded : Except Unit OscPacket) (light_state : LightState) :
    IngestOutcome :=
  match decoded with
  | .error _ => .next light_state Option.none
  | .ok p =>
    match handle_packet p light_state with
    | Option.none => .panicked
    | some (st, tag) => .next st (some (st, tag))

/-- `clamp` as the spec uses the word: restrict `n` to `[lo, hi]`. -/
def clamp (n lo hi : ℤ) : ℤ := max lo (min hi n)

/-- The rounding rule the code fixes (`as u8` on an in-range float):
truncation toward zero. -/
def round_policy (q : ℚ) : ℤ := if 0 ≤ q then ⌊q⌋ else -⌊-q⌋

end YongnuoBridge

namespace YongnuoBridge

/-! ### Helper lemmas -/

/-- Evaluation of `handle_message` on `/red` with a present first argument. -/
theorem handle_message_red_eval (v : OscType) (rest : List OscType) (s : LightState) :
    handle_message ⟨"/red", v :: rest⟩ s
      = some ({ s with rgb :=
            { s.rgb with red := ((v.float.getD (.finite 0)).scale 255).to_u8.getD 0 } },
          .RGB) := by
  simp [handle_message]

/-- Evaluation of `handle_message` on `/green` with a present first argument. -/
theorem handle_message_green_eval (v : OscType) (rest : List OscType) (s : LightState) :
    handle_message ⟨"/green", v :: rest⟩ s
      = some ({ s with rgb :=
            { s.rgb with green := ((v.float.getD (.finite 0)).scale 255).to_u8.getD 0 } },
          .RGB) := by
  simp [handle_message]

/-- Evaluation of `handle_message` on `/blue` with a present first argument. -/
theorem handle_message_blue_eval (v : OscType) (rest : List OscType) (s : LightState) :
    handle_message ⟨"/blue", v :: rest⟩ s
      = some ({ s with rgb :=
            { s.rgb with blue := ((v.float.getD (.finite 0)).scale 255).to_u8.getD 0 } },
          .RGB) := by
  simp [handle_message]

/-- Evaluation of `handle_message` on `/warm` with a present first argument. -/
theorem handle_message_warm_eval (v : OscType) (rest : List OscType) (s : LightState) :
    handle_message ⟨"/warm", v :: rest⟩ s
      = some ({ s with white :=
            { s.white with warm := ((v.float.getD (.finite 0)).scale 99).to_u8.getD 0 } },
          .White) := by
  simp [handle_message]

/-- Evaluation of `handle_message` on `/cool` with a present first argument. -/
theorem handle_message_cool_eval (v : OscType) (rest : List OscType) (s : LightState) :
    handle_message ⟨"/cool", v :: rest⟩ s
      = some ({ s with white :=
            { s.white with cool := ((v.float.getD (.finite 0)).scale 99).to_u8.getD 0 } },
          .White) := by
  simp [handle_message]

/-- For a scale factor `0 < c ≤ 255` and `f` in the unit interval, the code's
`to_u8().unwrap_or(0)` pipeline equals the spec's
`clamp(round_policy(f * c), 0, 255)` (the clamp being a no-op there). -/
theorem scale_to_u8_unit (f c : ℚ) (h0 : 0 ≤ f) (h1 : f ≤ 1)
    (hc0 : 0 < c) (hc : c ≤ 255) :
    ((FloatVal.finite f).scale c).to_u8.getD 0
      = (clamp (round_policy (f * c)) 0 255).toNat := by
  have hfc0 : 0 ≤ f * c := mul_nonneg h0 hc0.le
  have hfc255 : f * c ≤ 255 := by nlinarith
  have hlt : f * c < 256 := lt_of_le_of_lt hfc255 (by norm_num)
  have hgt : (-1 : ℚ) < f * c := lt_of_lt_of_le (by norm_num) hfc0
  have hfloor0 : 0 ≤ ⌊f * c⌋ := Int.floor_nonneg.mpr hfc0
  have hfloor255 : ⌊f * c⌋ ≤ 255 := by
    have h := Int.floor_le_floor hfc255
    simpa using h
  have hco : clamp (round_policy (f * c)) 0 255 = ⌊f * c⌋ := by
    unfold clamp round_policy
    rw [if_pos hfc0, min_eq_right hfloor255, max_eq_right hfloor0]
  show (FloatVal.finite (f * c)).to_u8.getD 0 = _
  rw [hco]
  simp only [FloatVal.to_u8, if_pos (And.intro hgt hlt), Option.getD_some]

/-- Whatever the argument, the value the dispatcher stores fits in a `u8`. -/
theorem to_u8_getD_le (w : FloatVal) : w.to_u8.getD 0 ≤ 255 := by
  cases w with
  | finite q =>
    simp only [FloatVal.to_u8]
    split_ifs with h
    · obtain ⟨h1, h2⟩ := h
      have hlt : ⌊q⌋ < 256 := by
        rw [Int.floor_lt]
        exact_mod_cast h2
      simp only [Option.getD_some]
      omega
    · simp
  | nan => simp [FloatVal.to_u8]
  | posInf => simp [FloatVal.to_u8]
  | negInf => simp [FloatVal.to_u8]

end YongnuoBridge
namespace YongnuoBridge

/-- Unfolding lemma for `handle_bundle` on a nonempty list. -/
theorem handle_bundle_cons (q : OscPacket) (rest : List OscPacket) (s : LightState) :
    handle_bundle (q :: rest) s
      = match handle_packet q s with
        | Option.none => Option.none
        | some r =>
          match rest with
          | [] => some r
          | _ :: _ => handle_bundle rest r.1 := by
  rw [handle_bundle.eq_def]

/-- A one-element bundle behaves like dispatching its only member. -/
theorem handle_bundle_singleton (p : OscPacket) (s : LightState) :
    handle_bundle [p] s = handle_packet p s := by
  rw [handle_bundle_cons]
  cases handle_packet p s <;> rfl

/-- Appending a final member to a bundle: the earlier members are dispatched
first (threading the state), then the final member is dispatched against the
accumulated state and its result (state and tag) is the bundle's result. -/
theorem handle_bundle_append_last (ps : List OscPacket) (p : OscPacket) (s : LightState) :
    handle_bundle (ps ++ [p]) s
      = (handle_bundle ps s).bind (fun r => handle_packet p r.1) := by
  induction ps generalizing s with
  | nil =>
    rw [List.nil_append, handle_bundle_singleton, handle_bundle]
    rfl
  | cons q qs ih =>
    rw [List.cons_append, handle_bundle_cons]
    cases hq : handle_packet q s with
    | none =>
      rw [handle_bundle_cons, hq]
      rfl
    | some r =>
      cases qs with
      | nil =>
        rw [handle_bundle_singleton, hq]
        exact handle_bundle_singleton p r.1
      | cons q2 qs2 =>
        show handle_bundle (q2 :: qs2 ++ [p]) r.1
            = (handle_bundle (q :: q2 :: qs2) s).bind (fun r => handle_packet p r.1)
        rw [ih]
        conv_rhs => rw [handle_bundle_cons, hq]

end YongnuoBridge
namespace YongnuoBridge

/-! ### Claim theorems -/

/-- C5 (code evidence): on a supported address, an EMPTY argument list makes
`handle_message` panic (the `value.unwrap()` on `None`, modelled by
`Option.none`), instead of applying the default `0.0`; a PRESENT non-float
first argument does default to `0.0`, storing `0` and returning the address's
tag. -/
theorem C5_empty_args_panic_nonfloat_defaults :
    handle_message ⟨"/red", []⟩ LightState.default = Option.none
  ∧ handle_message ⟨"/warm", []⟩ LightState.default = Option.none
  ∧ handle_message ⟨"/red", [OscType.Int 5]⟩ LightState.default
      = some (⟨⟨0, 0, 0⟩, ⟨0, 0⟩⟩, StateModification.RGB)
  ∧ handle_message ⟨"/warm", [OscType.other]⟩ LightState.default
      = some (⟨⟨0, 0, 0⟩, ⟨0, 0⟩⟩, StateModification.White) := by
  refine ⟨?_, ?_, ?_, ?_⟩ <;>
    simp [handle_message, OscType.float, FloatVal.scale, FloatVal.to_u8, LightState.default]

/-- C6: a bundle dispatches every member in order against the same threaded
state: dispatching `ps ++ [p]` equals dispatching `ps` and then dispatching
the final member `p` against the accumulated state, the bundle's returned tag
being exactly the final member's tag (earlier tags are discarded).
Concretely, the bundle `[/red 1.0, /warm 0.5]` from the all-zero state ends
with `red = 255` and `warm = 49` (both mutations applied) but returns only
`WhiteChanged`. -/
theorem C6_bundle_threads_state_keeps_last_tag (ps : List OscPacket) (p : OscPacket)
    (s : LightState) :
    handle_bundle (ps ++ [p]) s = (handle_bundle ps s).bind (fun r => handle_packet p r.1)
  ∧ handle_packet (.Bundle [.Message ⟨"/red", [.Float (.finite 1)]⟩,
        .Message ⟨"/warm", [.Float (.finite (1/2))]⟩]) LightState.default
      = some (⟨⟨255, 0, 0⟩, ⟨49, 0⟩⟩, StateModification.White) := by
  refine ⟨handle_bundle_append_last ps p s, ?_⟩
  simp [handle_packet, handle_bundle, handle_message, OscType.float, FloatVal.scale,
    FloatVal.to_u8, LightState.default]
  norm_num
  decide

/-- C7: the RGB frame written to the command characteristic is exactly
`[0xae, 0xa1, red, green, blue, 0x56]` and the white frame is exactly
`[0xae, 0xaa, 0x01, cool, warm, 0x56]` (cool byte before warm byte), each of
length 6, matching the spec's `rgbFrame`/`whiteFrame`. -/
theorem C7_frames_match_spec (s : LightState) :
    send_rgb_state_frame s = spec_rgbFrame s
  ∧ send_white_state_frame s = spec_whiteFrame s
  ∧ send_rgb_state_frame s = [0xae, 0xa1, s.rgb.red, s.rgb.green, s.rgb.blue, 0x56]
  ∧ send_white_state_frame s = [0xae, 0xaa, 0x01, s.white.cool, s.white.warm, 0x56]
  ∧ (send_rgb_state_frame s).length = 6
  ∧ (send_white_state_frame s).length = 6 :=
  ⟨rfl, rfl, rfl, rfl, rfl, rfl⟩

/-- C8: a datagram whose bytes fail to decode is logged and dropped: the
ingestion loop continues with its local `LightState` unchanged and publishes
nothing to the mailbox (in particular the thread does not die). -/
theorem C8_decode_failure_drops_datagram (st : LightState) :
    ingest_step (Except.error ()) st = IngestOutcome.next st Option.none := rfl

/-- C9: a message whose address is none of the five supported ones
(case-sensitively) leaves the `LightState` unchanged and returns
`StateModification.None`. -/
theorem C9_unsupported_address_noop (m : OscMessage) (s : LightState)
    (h1 : m.addr ≠ "/red") (h2 : m.addr ≠ "/green") (h3 : m.addr ≠ "/blue")
    (h4 : m.addr ≠ "/warm") (h5 : m.addr ≠ "/cool") :
    handle_message m s = some (s, StateModification.None) := by
  simp [handle_message, h1, h2, h3, h4, h5]

/-- Witness for C9 at the concrete unsupported (wrong-case) address `/RED`. -/
theorem C9_unsupported_address_noop_witness :
    handle_message ⟨"/RED", [.Float (.finite 1)]⟩ LightState.default
      = some (LightState.default, StateModification.None) :=
  C9_unsupported_address_noop ⟨"/RED", [.Float (.finite 1)]⟩ LightState.default
    (by decide) (by decide) (by decide) (by decide) (by decide)

/-- C10: a message to one supported address mutates only that address's
target channel: all four other channels (and, for the RGB addresses, the
whole white pair, and for the white addresses, the whole RGB triple) keep
their prior values, and the returned tag is the address's tag. -/
theorem C10_dispatch_mutates_only_target_channel (v : OscType) (rest : List OscType)
    (s : LightState) :
    (handle_message ⟨"/red", v :: rest⟩ s).map
        (fun r => (r.1.rgb.green, r.1.rgb.blue, r.1.white, r.2))
      = some (s.rgb.green, s.rgb.blue, s.white, StateModification.RGB)
  ∧ (handle_message ⟨"/green", v :: rest⟩ s).map
        (fun r => (r.1.rgb.red, r.1.rgb.blue, r.1.white, r.2))
      = some (s.rgb.red, s.rgb.blue, s.white, StateModification.RGB)
  ∧ (handle_message ⟨"/blue", v :: rest⟩ s).map
        (fun r => (r.1.rgb.red, r.1.rgb.green, r.1.white, r.2))
      = some (s.rgb.red, s.rgb.green, s.white, StateModification.RGB)
  ∧ (handle_message ⟨"/warm", v :: rest⟩ s).map
        (fun r => (r.1.rgb, r.1.white.cool, r.2))
      = some (s.rgb, s.white.cool, StateModification.White)
  ∧ (handle_message ⟨"/cool", v :: rest⟩ s).map
        (fun r => (r.1.rgb, r.1.white.warm, r.2))
      = some (s.rgb, s.white.warm, StateModification.White) := by
  refine ⟨?_, ?_, ?_, ?_, ?_⟩ <;>
    simp [handle_message_red_eval, handle_message_green_eval, handle_message_blue_eval,
      handle_message_warm_eval, handle_message_cool_eval]

end YongnuoBridge
namespace YongnuoBridge

/-- Variant of `scale_to_u8_unit` for the white channels: with scale `99` and
`f` in the unit interval the stored value is `clamp(round_policy(f*99), 0, 99)`
(the clamp again being a no-op). -/
theorem scale_to_u8_unit99 (f : ℚ) (h0 : 0 ≤ f) (h1 : f ≤ 1) :
    ((FloatVal.finite f).scale 99).to_u8.getD 0
      = (clamp (round_policy (f * 99)) 0 99).toNat := by
  have hfc0 : 0 ≤ f * 99 := mul_nonneg h0 (by norm_num)
  have hfc99 : f * 99 ≤ 99 := by nlinarith
  have hlt : f * 99 < 256 := lt_of_le_of_lt hfc99 (by norm_num)
  have hgt : (-1 : ℚ) < f * 99 := lt_of_lt_of_le (by norm_num) hfc0
  have hfloor0 : 0 ≤ ⌊f * 99⌋ := Int.floor_nonneg.mpr hfc0
  have hfloor99 : ⌊f * 99⌋ ≤ 99 := by
    have h := Int.floor_le_floor hfc99
    simpa using h
  have hco : clamp (round_policy (f * 99)) 0 99 = ⌊f * 99⌋ := by
    unfold clamp round_policy
    rw [if_pos hfc0, min_eq_right hfloor99, max_eq_right hfloor0]
  show (FloatVal.finite (f * 99)).to_u8.getD 0 = _
  rw [hco]
  simp only [FloatVal.to_u8, if_pos (And.intro hgt hlt), Option.getD_some]

/-- C1: after `publish(A, t1)` directly followed by `publish(B, t2)` with no
intervening consume, the slot holds exactly `(B, t2)` (the earlier pair is
overwritten and gone), the second publish issues exactly one `notify_one`,
and a single subsequent `consume` returns exactly `(B, t2)` and resets the
stored tag (for a non-`None` `t2` the wait is not even entered; for
`t2 = None` this holds provided nothing further is published while
waiting). -/
theorem C1_publish_overwrites_consume_sees_last (m : Mailbox) (A B : LightState)
    (t1 t2 : StateModification) (w : Option (LightState × StateModification))
    (h : t2 ≠ StateModification.None ∨ w = Option.none) :
    (publish (publish m A t1).1 B t2).1.slot = (B, t2)
  ∧ consume (publish (publish m A t1).1 B t2).1 w
      = ((B, t2), ⟨(B, StateModification.None)⟩)
  ∧ (publish (publish m A t1).1 B t2).2 = 1 := by
  refine ⟨rfl, ?_, rfl⟩
  by_cases ht : t2 = StateModification.None
  · rcases h with h | h
    · exact absurd ht h
    · subst h
      subst ht
      simp [consume, publish, condvar_wait]
  · simp [consume, publish, condvar_wait, ht]

/-- Witness for C1 at concrete states and tags. -/
theorem C1_publish_overwrites_consume_sees_last_witness :
    (StateModification.White ≠ StateModification.None ∨
        (Option.none : Option (LightState × StateModification)) = Option.none)
  ∧ consume (publish (publish ⟨(LightState.default, StateModification.None)⟩
        ⟨⟨1, 2, 3⟩, ⟨4, 5⟩⟩ StateModification.RGB).1 ⟨⟨9, 8, 7⟩, ⟨6, 5⟩⟩
        StateModification.White).1 Option.none
      = ((⟨⟨9, 8, 7⟩, ⟨6, 5⟩⟩, StateModification.White),
          ⟨(⟨⟨9, 8, 7⟩, ⟨6, 5⟩⟩, StateModification.None)⟩) :=
  ⟨Or.inl (by decide),
    (C1_publish_overwrites_consume_sees_last ⟨(LightState.default, StateModification.None)⟩
      ⟨⟨1, 2, 3⟩, ⟨4, 5⟩⟩ ⟨⟨9, 8, 7⟩, ⟨6, 5⟩⟩ StateModification.RGB StateModification.White
      Option.none (Or.inl (by decide))).2.1⟩

/-- C2 counterexample: the consumer guards the wait with IF, not WHILE
(server.rs line 229), so a spurious wake with no intervening publish makes
`consume` return with the stored tag still `None` — contradicting the claim
that every return of `consume` carries a non-`None` tag. -/
theorem C2_counterexample_spurious_wake_returns_none :
    (consume ⟨(LightState.default, StateModification.None)⟩ Option.none).1.2
      = StateModification.None := rfl

/-- C2 (amended): if the stored tag is non-`None`, `consume` returns the
stored pair without waiting; if the tag is `None` it waits ONCE: woken after
a publish it returns the last published pair, but on a spurious wake with no
intervening publish it returns the stored snapshot with tag `None` instead
of re-entering the wait.  In every case the stored tag is reset to `None`
and the snapshot is kept. -/
theorem C2_amended_consume_wait_behavior (m : Mailbox)
    (w : Option (LightState × StateModification)) (p : LightState × StateModification) :
    (m.slot.2 ≠ StateModification.None →
      consume m w = (m.slot, ⟨(m.slot.1, StateModification.None)⟩))
  ∧ (m.slot.2 = StateModification.None →
      consume m Option.none
        = ((m.slot.1, StateModification.None), ⟨(m.slot.1, StateModification.None)⟩))
  ∧ (m.slot.2 = StateModification.None →
      consume m (some p) = (p, ⟨(p.1, StateModification.None)⟩)) := by
  obtain ⟨⟨st, tag⟩⟩ := m
  refine ⟨?_, ?_, ?_⟩ <;> intro h <;> simp only at h <;>
    simp [consume, condvar_wait, h]

/-- Witness for C2's amended theorem: a non-`None` stored tag is returned
as-is without waiting. -/
theorem C2_amended_consume_wait_behavior_witness :
    StateModification.RGB ≠ StateModification.None
  ∧ consume ⟨(LightState.default, StateModification.RGB)⟩ Option.none
      = ((LightState.default, StateModification.RGB),
          ⟨(LightState.default, StateModification.None)⟩) :=
  ⟨by decide,
    (C2_amended_consume_wait_behavior ⟨(LightState.default, StateModification.RGB)⟩
      Option.none (LightState.default, StateModification.None)).1 (by decide)⟩

end YongnuoBridge
namespace YongnuoBridge

/-- C3: for every float `f` in `[0,1]`, `/red f` stores
`clamp(round_policy(f*255), 0, 255)` and returns `RGBChanged`, identically
for `/green` and `/blue`, and for `/warm` and `/cool` with scale 99 and
range `0..99` returning `WhiteChanged` — the code's `round_policy` being
truncation toward zero — and `f = 1.0` stores exactly the channel maximum
(255, resp. 99). -/
theorem C3_unit_interval_scaling (f : ℚ) (h0 : 0 ≤ f) (h1 : f ≤ 1)
    (s : LightState) (rest : List OscType) :
    handle_message ⟨"/red", .Float (.finite f) :: rest⟩ s
      = some ({ s with rgb := { s.rgb with
            red := (clamp (round_policy (f * 255)) 0 255).toNat } }, .RGB)
  ∧ handle_message ⟨"/green", .Float (.finite f) :: rest⟩ s
      = some ({ s with rgb := { s.rgb with
            green := (clamp (round_policy (f * 255)) 0 255).toNat } }, .RGB)
  ∧ handle_message ⟨"/blue", .Float (.finite f) :: rest⟩ s
      = some ({ s with rgb := { s.rgb with
            blue := (clamp (round_policy (f * 255)) 0 255).toNat } }, .RGB)
  ∧ handle_message ⟨"/warm", .Float (.finite f) :: rest⟩ s
      = some ({ s with white := { s.white with
            warm := (clamp (round_policy (f * 99)) 0 99).toNat } }, .White)
  ∧ handle_message ⟨"/cool", .Float (.finite f) :: rest⟩ s
      = some ({ s with white := { s.white with
            cool := (clamp (round_policy (f * 99)) 0 99).toNat } }, .White)
  ∧ handle_message ⟨"/red", .Float (.finite 1) :: rest⟩ s
      = some ({ s with rgb := { s.rgb with red := 255 } }, .RGB)
  ∧ handle_message ⟨"/green", .Float (.finite 1) :: rest⟩ s
      = some ({ s with rgb := { s.rgb with green := 255 } }, .RGB)
  ∧ handle_message ⟨"/blue", .Float (.finite 1) :: rest⟩ s
      = some ({ s with rgb := { s.rgb with blue := 255 } }, .RGB)
  ∧ handle_message ⟨"/warm", .Float (.finite 1) :: rest⟩ s
      = some ({ s with white := { s.white with warm := 99 } }, .White)
  ∧ handle_message ⟨"/cool", .Float (.finite 1) :: rest⟩ s
      = some ({ s with white := { s.white with cool := 99 } }, .White) := by
  have h255 := scale_to_u8_unit f 255 h0 h1 (by norm_num) (by norm_num)
  have h99 := scale_to_u8_unit99 f h0 h1
  have e255 : ((FloatVal.finite 1).scale 255).to_u8.getD 0 = 255 := by
    norm_num [FloatVal.scale, FloatVal.to_u8]
    decide
  have e99 : ((FloatVal.finite 1).scale 99).to_u8.getD 0 = 99 := by
    norm_num [FloatVal.scale, FloatVal.to_u8]
    decide
  refine ⟨?_, ?_, ?_, ?_, ?_, ?_, ?_, ?_, ?_, ?_⟩ <;>
    simp [handle_message_red_eval, handle_message_green_eval, handle_message_blue_eval,
      handle_message_warm_eval, handle_message_cool_eval, OscType.float,
      h255, h99, e255, e99]

/-- Witness for C3 at `f = 1/2`. -/
theorem C3_unit_interval_scaling_witness :
    ((0 : ℚ) ≤ 1 / 2 ∧ (1 / 2 : ℚ) ≤ 1)
  ∧ handle_message ⟨"/red", [.Float (.finite (1 / 2))]⟩ LightState.default
      = some ({ LightState.default with rgb := { LightState.default.rgb with
            red := (clamp (round_policy ((1 / 2) * 255)) 0 255).toNat } }, .RGB) :=
  ⟨⟨by norm_num, by norm_num⟩,
    (C3_unit_interval_scaling (1 / 2) (by norm_num) (by norm_num)
      LightState.default []).1⟩

/-- C4 counterexample: `/warm 2.0` stores `warm = 198`, strictly above the
declared `0..99` range — the code truncates and falls back to `0` out of
`(-1, 256)`, it never clamps to the channel maximum. -/
theorem C4_counterexample_warm_exceeds_99 :
    handle_message ⟨"/warm", [OscType.Float (FloatVal.finite 2)]⟩ LightState.default
      = some (⟨⟨0, 0, 0⟩, ⟨198, 0⟩⟩, StateModification.White)
  ∧ 99 < 198 := by
  constructor
  · simp [handle_message, OscType.float, FloatVal.scale, FloatVal.to_u8, LightState.default]
    norm_num
    decide
  · norm_num

/-- C4 (amended): every dispatch to a supported address stores a value that
fits in a `u8` (`≤ 255`), so red, green and blue always stay in their
declared `0..255` range; but warm and cool are NOT clamped to `0..99`: a
scaled value in `(-1, 256)` is stored truncated and unclamped (e.g.
`/warm 2.0` stores 198), and a scaled value outside `(-1, 256)` — including
NaN and the infinities — stores `0`. -/
theorem C4_amended_all_channels_fit_u8 (v : OscType) (rest : List OscType)
    (s s2 : LightState) (t : StateModification) :
    (handle_message ⟨"/red", v :: rest⟩ s = some (s2, t) → s2.rgb.red ≤ 255)
  ∧ (handle_message ⟨"/green", v :: rest⟩ s = some (s2, t) → s2.rgb.green ≤ 255)
  ∧ (handle_message ⟨"/blue", v :: rest⟩ s = some (s2, t) → s2.rgb.blue ≤ 255)
  ∧ (handle_message ⟨"/warm", v :: rest⟩ s = some (s2, t) → s2.white.warm ≤ 255)
  ∧ (handle_message ⟨"/cool", v :: rest⟩ s = some (s2, t) → s2.white.cool ≤ 255)
  ∧ FloatVal.nan.to_u8.getD 0 = 0
  ∧ FloatVal.posInf.to_u8.getD 0 = 0
  ∧ FloatVal.negInf.to_u8.getD 0 = 0 := by
  refine ⟨?_, ?_, ?_, ?_, ?_, rfl, rfl, rfl⟩
  · intro h
    rw [handle_message_red_eval] at h
    injection h with h2
    injection h2 with h3 h4
    subst h3
    exact to_u8_getD_le _
  · intro h
    rw [handle_message_green_eval] at h
    injection h with h2
    injection h2 with h3 h4
    subst h3
    exact to_u8_getD_le _
  · intro h
    rw [handle_message_blue_eval] at h
    injection h with h2
    injection h2 with h3 h4
    subst h3
    exact to_u8_getD_le _
  · intro h
    rw [handle_message_warm_eval] at h
    injection h with h2
    injection h2 with h3 h4
    subst h3
    exact to_u8_getD_le _
  · intro h
    rw [handle_message_cool_eval] at h
    injection h with h2
    injection h2 with h3 h4
    subst h3
    exact to_u8_getD_le _

/-- Witness for C4's amended theorem at the unclamped input `/warm 2.0`. -/
theorem C4_amended_all_channels_fit_u8_witness :
    handle_message ⟨"/warm", [OscType.Float (FloatVal.finite 2)]⟩ LightState.default
      = some (⟨⟨0, 0, 0⟩, ⟨198, 0⟩⟩, StateModification.White)
  ∧ (⟨⟨0, 0, 0⟩, ⟨198, 0⟩⟩ : LightState).white.warm ≤ 255 := by
  have hc : handle_message ⟨"/warm", [OscType.Float (FloatVal.finite 2)]⟩ LightState.default
      = some (⟨⟨0, 0, 0⟩, ⟨198, 0⟩⟩, StateModification.White) := by
    simp [handle_message, OscType.float, FloatVal.scale, FloatVal.to_u8, LightState.default]
    norm_num
    decide
  exact ⟨hc, (C4_amended_all_channels_fit_u8 (OscType.Float (FloatVal.finite 2)) []
    LightState.default ⟨⟨0, 0, 0⟩, ⟨198, 0⟩⟩ StateModification.White).2.2.2.1 hc⟩

end YongnuoBridge
